import Mathlib

/-!
Verification of the two HTTP client scripts of this repository:
`skills/minrue-integration/scripts/minrue_client.py` (class `MinRueClient` and
its CLI) and `skills/ragflow/scripts/ragflow_client.py` (class `RagflowClient`
and its CLI).  The Python code is shallowly embedded: JSON object bodies become
association lists, exceptions become an explicit error type threaded through
`Except`, wall-clock time in the polling loop becomes an explicit clock
advanced by fetch durations and sleep intervals, and the remote service
becomes a function from poll indices to responses.
-/

/-- Parsed JSON object body with string values, as used by the result-polling
code: `response.json()` for the `results` endpoint produces a flat dictionary
(keys such as `status`, `output`, `error`). -/
abbrev Obj := List (String × String)

/-- Errors raised by the Python client code: `requests.HTTPError` from
`raise_for_status` (carrying the response status and body), `TimeoutError`
from the polling loop, `KeyError` from a dictionary lookup, and
`FileNotFoundError` from the local file checks. -/
inductive ClientError where
  | httpError (status : Nat) (body : Obj)
  | timeoutError
  | keyError (key : String)
  | fileNotFound (path : String)
  deriving DecidableEq, Repr

/-- An HTTP response as seen by the client after the session layer: a status
code and a parsed JSON object body. -/
structure HttpResponse where
  status : Nat
  body : Obj
  deriving DecidableEq, Repr

/-- Embedding of `response.raise_for_status()`: `requests` raises `HTTPError`
exactly for status codes in [400, 600). -/
def raiseForStatus (r : HttpResponse) : Except ClientError HttpResponse :=
  if 400 ≤ r.status ∧ r.status < 600 then
    Except.error (ClientError.httpError r.status r.body)
  else
    Except.ok r

/-- Embedding of the Python dictionary subscript `d[k]`: returns the value or
raises `KeyError(k)`. -/
def dictGet (o : Obj) (k : String) : Except ClientError String :=
  match o.lookup k with
  | some v => Except.ok v
  | none => Except.error (ClientError.keyError k)

/-- Embedding of the Python expression `base_url.rstrip(\x27/\x27)` used by both
constructors: removes every trailing slash character. -/
def rstripSlashes (s : String) : String :=
  String.mk ((s.data.reverse.dropWhile (fun c => c == '/')).reverse)

/-- A string of `n` slash characters, used to state the trailing-slash
normalisation property. -/
def slashRepeat (n : Nat) : String :=
  String.mk (List.replicate n '/')

/-- Boolean string-suffix test used to state properties about composed URLs. -/
def strEndsWith (s pat : String) : Bool :=
  pat.data.isSuffixOf s.data

/-- The `MinRueClient` state set up by `__init__` (`minrue_client.py`
lines 32-43): the stored base URL is the argument with trailing slashes
stripped; the retry-configured session is modelled separately. -/
structure MinRueClient where
  base_url : String
  timeout : Nat
  deriving DecidableEq, Repr

/-- `MinRueClient.__init__` with the default `timeout=30`:
`self.base_url = base_url.rstrip(\x27/\x27)`. -/
def MinRueClient.init (baseUrl : String) : MinRueClient :=
  ⟨rstripSlashes baseUrl, 30⟩

/-- URL built by `MinRueClient.get_health`. -/
def MinRueClient.health_url (c : MinRueClient) : String :=
  c.base_url ++ "/health"

/-- URL built by `MinRueClient.list_models`. -/
def MinRueClient.models_url (c : MinRueClient) : String :=
  c.base_url ++ "/models"

/-- URL built by `MinRueClient.list_tasks`. -/
def MinRueClient.tasks_url (c : MinRueClient) : String :=
  c.base_url ++ "/tasks"

/-- URL built by `MinRueClient.process_file`. -/
def MinRueClient.process_url (c : MinRueClient) : String :=
  c.base_url ++ "/process"

/-- URL built by `MinRueClient.get_result`:
`f"{self.base_url}/results/{job_id}"`. -/
def MinRueClient.results_url (c : MinRueClient) (jobId : String) : String :=
  c.base_url ++ "/results/" ++ jobId

/-- The `RagflowClient` state set up by `__init__` (`ragflow_client.py`
lines 30-43). -/
structure RagflowClient where
  api_key : String
  base_url : String
  timeout : Nat
  deriving DecidableEq, Repr

/-- `RagflowClient.__init__` with the default `timeout=30`:
`self.base_url = base_url.rstrip(\x27/\x27)`. -/
def RagflowClient.init (apiKey baseUrl : String) : RagflowClient :=
  ⟨apiKey, rstripSlashes baseUrl, 30⟩

/-- URL built by `RagflowClient.construct_knowledge_graph`
(`ragflow_client.py` line 321):
`f"{self.base_url}/datasets/{dataset_id}/run_graphrag"`. -/
def RagflowClient.construct_knowledge_graph_url (c : RagflowClient) (datasetId : String) : String :=
  c.base_url ++ "/datasets/" ++ datasetId ++ "/run_graphrag"

/-- HTTP method used by `RagflowClient.construct_knowledge_graph`
(`session.post`). -/
def construct_knowledge_graph_method : String := "POST"

/-- URL built by `RagflowClient.get_knowledge_graph` (line 338):
`f"{self.base_url}/datasets/{dataset_id}/knowledge_graph"`. -/
def RagflowClient.get_knowledge_graph_url (c : RagflowClient) (datasetId : String) : String :=
  c.base_url ++ "/datasets/" ++ datasetId ++ "/knowledge_graph"

/-- HTTP method used by `RagflowClient.get_knowledge_graph` (`session.get`). -/
def get_knowledge_graph_method : String := "GET"

/-- URL built by `RagflowClient.delete_knowledge_graph` (line 372):
`f"{self.base_url}/datasets/{dataset_id}/knowledge_graph"`. -/
def RagflowClient.delete_knowledge_graph_url (c : RagflowClient) (datasetId : String) : String :=
  c.base_url ++ "/datasets/" ++ datasetId ++ "/knowledge_graph"

/-- HTTP method used by `RagflowClient.delete_knowledge_graph`
(`session.delete`). -/
def delete_knowledge_graph_method : String := "DELETE"

/-- Exit record of one call to `MinRueClient.get_result`: how many times the
`results` endpoint was fetched, the wall-clock time (seconds since
`start_time`) at which the call returned or raised, and the returned body or
raised error. -/
structure PollExit where
  fetches : Nat
  elapsed : Nat
  result : Except ClientError Obj
  deriving Repr

/-- Embedding of the `while True` loop of `MinRueClient.get_result`
(`minrue_client.py` lines 142-153).  `poll k` is the response of the k-th
`session.get` (after the session-level retries), `d k` the wall-clock duration
of that fetch, `clock` the value of `time.time() - start_time` when the k-th
iteration starts.  Each iteration: fetch, `raise_for_status`, read
`result["status"]` (a `KeyError` if absent), return if the status is terminal
or `wait` is false, raise `TimeoutError` if the elapsed time exceeds
`maxWait`, else sleep `pollInterval` seconds and repeat.  The loop has no
bound of its own, so it is embedded with explicit fuel; `none` means the fuel
ran out before the loop exited. -/
def getResultLoop (poll : Nat → HttpResponse) (d : Nat → Nat) (wait : Bool)
    (maxWait pollInterval : Nat) : Nat → Nat → Nat → Option PollExit
  | 0, _, _ => none
  | fuel + 1, k, clock =>
    let t := clock + d k
    match raiseForStatus (poll k) with
    | Except.error e => some ⟨k + 1, t, Except.error e⟩
    | Except.ok r =>
      match dictGet r.body "status" with
      | Except.error e => some ⟨k + 1, t, Except.error e⟩
      | Except.ok st =>
        if st = "completed" ∨ st = "failed" ∨ wait = false then
          some ⟨k + 1, t, Except.ok r.body⟩
        else if maxWait < t then
          some ⟨k + 1, t, Except.error ClientError.timeoutError⟩
        else
          getResultLoop poll d wait maxWait pollInterval fuel (k + 1) (t + pollInterval)

/-- `MinRueClient.get_result`: the polling loop started at iteration 0 and
elapsed time 0, given fuel `maxWait + 2`, which suffices whenever every
iteration consumes positive wall-clock time. -/
def get_result (poll : Nat → HttpResponse) (d : Nat → Nat) (wait : Bool)
    (maxWait pollInterval : Nat) : Option PollExit :=
  getResultLoop poll d wait maxWait pollInterval (maxWait + 2) 0 0

/-- The retry-eligible status codes configured by `_create_session` in both
clients: `status_forcelist=[429, 500, 502, 503, 504]`. -/
def status_forcelist : List Nat := [429, 500, 502, 503, 504]

/-- The retry-eligible HTTP methods configured by `_create_session` in both
clients (`allowed_methods` on urllib3 v2, `method_whitelist` on v1, with the
same value). -/
def allowed_methods : List String :=
  ["HEAD", "GET", "POST", "PUT", "DELETE", "OPTIONS", "TRACE"]

/-- The backoff factor configured by `_create_session` in both clients:
`backoff_factor=1`. -/
def backoff_factor : Nat := 1

/-- Modelled from the spec: the urllib3 `Retry`/`HTTPAdapter` machinery that
`_create_session` configures is third-party library code not present in this
repository, so its request loop is taken from the specification (section 4.1):
on each request, if the response status is retry-eligible and the method is
retry-eligible, the session retries up to the configured maximum with delay
`backoff_factor * 2 ^ (attempt - 1)` seconds before retry attempt number
`attempt`; after exhausting attempts the caller receives the last failing
response; a non-eligible status surfaces immediately.  `respond a` is the
response to the a-th attempt (0-based), `rem` the remaining retry budget; the
result is the final response together with the list of sleep delays. -/
def retryLoop (respond : Nat → HttpResponse) (method : String) :
    Nat → Nat → HttpResponse × List Nat
  | a, 0 => (respond a, [])
  | a, rem + 1 =>
    if allowed_methods.contains method && status_forcelist.contains (respond a).status then
      let rest := retryLoop respond method (a + 1) rem
      (rest.1, backoff_factor * 2 ^ a :: rest.2)
    else
      (respond a, [])

/-- One request through the retry-configured session created by
`_create_session` with `total=retries`: attempt 0 plus up to `retries`
retries. -/
def sessionRequest (respond : Nat → HttpResponse) (method : String) (retries : Nat) :
    HttpResponse × List Nat :=
  retryLoop respond method 0 retries

/-- Observable file-handle and network events of an upload operation. -/
inductive FileEvent where
  | openFile (path : String)
  | closeFile (path : String)
  | httpRequest
  deriving DecidableEq, Repr

/-- Event trace of `MinRueClient.process_file` on an existing file
(`minrue_client.py` lines 112-121): the `with open(file_path, "rb") as f:`
block ends immediately after building the `files` dictionary at line 113, so
the handle is closed before `session.post` runs at line 121. -/
def process_file_events (filePath : String) : List FileEvent :=
  [FileEvent.openFile filePath, FileEvent.closeFile filePath, FileEvent.httpRequest]

/-- Event trace of `RagflowClient.upload_documents` on existing files
(`ragflow_client.py` lines 270-286): every file is opened, the POST is issued,
and the explicit close loop (lines 283-284) runs only after
`raise_for_status`, so it is skipped when the request or the status check
raises (`requestOk = false`). -/
def upload_documents_events (paths : List String) (requestOk : Bool) : List FileEvent :=
  (paths.map FileEvent.openFile) ++ [FileEvent.httpRequest] ++
    (if requestOk then paths.map FileEvent.closeFile else [])

/-- The prefix of a trace strictly before its first HTTP request. -/
def beforeRequest : List FileEvent → List FileEvent
  | [] => []
  | FileEvent.httpRequest :: _ => []
  | e :: rest => e :: beforeRequest rest

/-- Whether the handle for `p` is open after the given events: more opens than
closes of that path. -/
def isOpenAfter (tr : List FileEvent) (p : String) : Bool :=
  decide (tr.count (FileEvent.closeFile p) < tr.count (FileEvent.openFile p))

/-- Whether the handle for `p` is still open at the moment the first HTTP
request of the trace is issued. -/
def openDuringRequest (tr : List FileEvent) (p : String) : Bool :=
  isOpenAfter (beforeRequest tr) p

/-- Outcome of `MinRueClient.process_file` (`minrue_client.py` lines 94-123),
projected to its error behaviour and network usage: `fs` is the local
filesystem (`os.path.exists`), `resp` the response to the POST, the `Nat` the
number of network calls issued.  A missing file raises `FileNotFoundError`
before the URL is even built. -/
def process_file (fs : String → Bool) (filePath : String) (resp : HttpResponse) :
    Except ClientError Obj × Nat :=
  if fs filePath then
    match raiseForStatus resp with
    | Except.error e => (Except.error e, 1)
    | Except.ok r => (Except.ok r.body, 1)
  else
    (Except.error (ClientError.fileNotFound filePath), 0)

/-- The open loop of `RagflowClient.upload_documents` (lines 270-272):
`open(file_path, "rb")` on each listed path in order; the first missing path
raises `FileNotFoundError`. -/
def openAll (fs : String → Bool) : List String → Except ClientError (List String)
  | [] => Except.ok []
  | p :: ps =>
    if fs p then
      match openAll fs ps with
      | Except.ok rest => Except.ok (p :: rest)
      | Except.error e => Except.error e
    else
      Except.error (ClientError.fileNotFound p)

/-- Outcome of `RagflowClient.upload_documents` (lines 256-286), projected to
its error behaviour and network usage: all files are opened before the POST,
so a missing path aborts the call with zero network requests. -/
def upload_documents (fs : String → Bool) (datasetId : String) (paths : List String)
    (resp : HttpResponse) : Except ClientError Obj × Nat :=
  match openAll fs paths with
  | Except.error e => (Except.error e, 0)
  | Except.ok _ =>
    match raiseForStatus resp with
    | Except.error e => (Except.error e, 1)
    | Except.ok r => (Except.ok r.body, 1)

/-- Rendering of a caught exception as interpolated into the
`print(f"Error: ...")` lines of the CLIs, following the Python `str()` of each
exception type (`FileNotFoundError` and `TimeoutError` carry the exact message
the client code constructs; the `requests` HTTPError text is abbreviated to
its status code). -/
def errMsg : ClientError → String
  | ClientError.httpError status _ => toString status ++ " Error"
  | ClientError.timeoutError => "Result retrieval timed out"
  | ClientError.keyError k => "KeyError: " ++ k
  | ClientError.fileNotFound p => "File not found: " ++ p

/-- Rendering of `json.dumps` for a flat object body, used by the minrue CLI
handlers for `health`, `models` and `tasks`. -/
def jsonDump (o : Obj) : String :=
  "\x7b" ++ String.intercalate ", "
    (o.map (fun kv => "\x22" ++ kv.1 ++ "\x22: \x22" ++ kv.2 ++ "\x22")) ++ "\x7d"

/-- `MinRueCLI.health` (`minrue_client.py` lines 162-170), also the shape of
the `models` and `tasks` handlers: on success print the JSON dump and return
exit code 0; any exception is caught, a message is printed and 1 is
returned.  The outcome is the result of `self.client.get_health()`; the pair
is (exit code, printed lines). -/
def cli_health (outcome : Except ClientError Obj) : Nat × List String :=
  match outcome with
  | Except.ok h => (0, [jsonDump h])
  | Except.error e => (1, ["Error: " ++ errMsg e])

/-- `MinRueCLI.result` (`minrue_client.py` lines 220-240): prints the
retrieval banner, then on a `completed` record either saves or prints the
output (exit 0), on any other status prints the failure (exit 1), and catches
every exception from the fetch or the dictionary lookups with an error
message and exit 1.  The file write is modelled by its log line. -/
def cli_result (jobId : String) (outcome : Except ClientError Obj)
    (outputPath : Option String) : Nat × List String :=
  let pre := "Retrieving results for job ID: " ++ jobId
  match outcome with
  | Except.error e => (1, [pre, "Error: " ++ errMsg e])
  | Except.ok r =>
    match dictGet r "status" with
    | Except.error e => (1, [pre, "Error: " ++ errMsg e])
    | Except.ok st =>
      if st = "completed" then
        match dictGet r "output" with
        | Except.error e => (1, [pre, "Error: " ++ errMsg e])
        | Except.ok out =>
          match outputPath with
          | some p => (0, [pre, "Results saved to: " ++ p])
          | none => (0, [pre, "\n" ++ out])
      else
        match dictGet r "error" with
        | Except.error e => (1, [pre, "Error: " ++ errMsg e])
        | Except.ok err => (1, [pre, "Processing failed: " ++ err])

/-- `MinRueCLI.process` (`minrue_client.py` lines 192-218): prints the
processing banner, submits the file (`processOutcome` is the result of
`self.client.process_file`), reads `job_info["job_id"]`, and then either
returns 0 with a check-later hint (no output path), or waits for the result
(`resultOutcome` is the result of the blocking `get_result` call) and returns
0 after saving a `completed` output or 1 after printing the failure; every
exception on the way is caught by the handler that prints an error message
and returns 1.  The file write is modelled by its log line. -/
def cli_process (filePath : String) (processOutcome : Except ClientError Obj)
    (resultOutcome : Except ClientError Obj) (outputPath : Option String) :
    Nat × List String :=
  let pre := "Processing file: " ++ filePath
  match processOutcome with
  | Except.error e => (1, [pre, "Error: " ++ errMsg e])
  | Except.ok jobInfo =>
    match dictGet jobInfo "job_id" with
    | Except.error e => (1, [pre, "Error: " ++ errMsg e])
    | Except.ok jobId =>
      let started := "Processing started with job ID: " ++ jobId
      match outputPath with
      | none =>
        (0, [pre, started, "To check results later: python minrue_client.py result " ++ jobId])
      | some p =>
        let waiting := "Waiting for results..."
        match resultOutcome with
        | Except.error e => (1, [pre, started, waiting, "Error: " ++ errMsg e])
        | Except.ok r =>
          match dictGet r "status" with
          | Except.error e => (1, [pre, started, waiting, "Error: " ++ errMsg e])
          | Except.ok st =>
            if st = "completed" then
              match dictGet r "output" with
              | Except.error e => (1, [pre, started, waiting, "Error: " ++ errMsg e])
              | Except.ok _ =>
                (0, [pre, started, waiting, "Processing completed. Results saved to: " ++ p])
            else
              match dictGet r "error" with
              | Except.error e => (1, [pre, started, waiting, "Error: " ++ errMsg e])
              | Except.ok err => (1, [pre, started, waiting, "Processing failed: " ++ err])

/-- `handle_ragflow_error` (`ragflow_client.py` lines 513-529) on a response
whose body parsed as JSON: `error_data.get("code")` (printed as `None` when
absent) and `error_data.get("message", "Unknown error")`. -/
def handle_ragflow_error (body : Obj) : String :=
  "RAGFlow Error " ++
    (match body.lookup "code" with
     | some c => c
     | none => "None") ++ ": " ++
    (match body.lookup "message" with
     | some m => m
     | none => "Unknown error")

/-- The `__main__` block of `ragflow_client.py` (lines 532-542): `cli.run()`
returning normally exits with its return value 0; a `requests` HTTPError is
caught and formatted through `handle_ragflow_error`; every other exception is
caught by the generic handler; both error paths print a message and exit 1. -/
def ragflow_main (runOutcome : Except ClientError (List String)) : Nat × List String :=
  match runOutcome with
  | Except.ok lines => (0, lines)
  | Except.error (ClientError.httpError _ body) =>
    (1, ["Error: " ++ handle_ragflow_error body])
  | Except.error e => (1, ["Unexpected error: " ++ errMsg e])

/-- Nested JSON values, needed for the ragflow dataset-creation response whose
`data` member is itself an object. -/
inductive Json where
  | null
  | str (s : String)
  | num (n : Int)
  | arr (elems : List Json)
  | obj (members : List (String × Json))

/-- Python subscript `j[k]` on a parsed JSON value: a `KeyError` when the key
is absent (lookup on anything other than an object is collapsed into the same
error constructor). -/
def Json.get (j : Json) (k : String) : Except ClientError Json :=
  match j with
  | Json.obj ms =>
    match ms.lookup k with
    | some v => Except.ok v
    | none => Except.error (ClientError.keyError k)
  | _ => Except.error (ClientError.keyError k)

/-- Rendering of a JSON value inside a Python f-string (`str()` of the
value); only the string and null cases are exercised by the claims. -/
def Json.asString : Json → String
  | Json.null => "None"
  | Json.str s => s
  | Json.num n => toString n
  | Json.arr _ => "[...]"
  | Json.obj _ => "\x7b...\x7d"

/-- The dataset-creation branch of `RagflowCLI.run` (`ragflow_client.py`
lines 491-493): the single line printed for a creation response,
`f"Created dataset: {result[\x22data\x22][\x22name\x22]} (ID: {result[\x22data\x22][\x22id\x22]})"`,
or the exception raised by a subscript on the way. -/
def dataset_create_line (resp : Json) : Except ClientError String :=
  match resp.get "data" with
  | Except.error e => Except.error e
  | Except.ok data =>
    match data.get "name" with
    | Except.error e => Except.error e
    | Except.ok name =>
      match data.get "id" with
      | Except.error e => Except.error e
      | Except.ok id =>
        Except.ok ("Created dataset: " ++ name.asString ++ " (ID: " ++ id.asString ++ ")")

-- Helper lemmas on strings and lists (shared by several claims).

theorem data_append_eq (s t : String) : (s ++ t).data = s.data ++ t.data :=
  String.data_append s t

theorem string_append_assoc (a b c : String) : a ++ b ++ c = a ++ (b ++ c) := by
  apply String.ext
  simp [data_append_eq]

theorem dropWhile_slash_replicate (x : List Char) (n : Nat) :
    (List.replicate n '/' ++ x).dropWhile (fun c => c == '/') =
      x.dropWhile (fun c => c == '/') := by
  induction n with
  | zero => rfl
  | succ n ih =>
    simp only [List.replicate_succ, List.cons_append, List.dropWhile_cons]
    simp only [show (('/' : Char) == '/') = true from rfl, if_true]
    exact ih

theorem rstripSlashes_append_slashes (s : String) (n : Nat) :
    rstripSlashes (s ++ slashRepeat n) = rstripSlashes s := by
  unfold rstripSlashes slashRepeat
  apply String.ext
  simp only [data_append_eq]
  show ((s.data ++ (String.mk (List.replicate n '/')).data).reverse.dropWhile
      (fun c => c == '/')).reverse = _
  rw [show (String.mk (List.replicate n '/')).data = List.replicate n '/' from rfl,
    List.reverse_append, List.reverse_replicate, dropWhile_slash_replicate]

theorem isPrefixOf_slash_dropWhile (l : List Char) :
    (['/'].isPrefixOf (l.dropWhile (fun c => c == '/'))) = false := by
  induction l with
  | nil => rfl
  | cons c t ih =>
    by_cases h : c = '/'
    · subst h
      simpa [List.dropWhile_cons] using ih
    · simp [List.dropWhile_cons, h, List.isPrefixOf]
      intro hc
      exact absurd hc.symm h

theorem rstripSlashes_no_trailing_slash (s : String) :
    strEndsWith (rstripSlashes s) "/" = false := by
  show List.isSuffixOf "/".data (rstripSlashes s).data = false
  show List.isPrefixOf ("/".data.reverse)
      (((s.data.reverse.dropWhile (fun c => c == '/')).reverse).reverse) = false
  rw [List.reverse_reverse]
  exact isPrefixOf_slash_dropWhile _

theorem isPrefixOf_self_append (l t : List Char) : l.isPrefixOf (l ++ t) = true := by
  induction l with
  | nil => cases t <;> rfl
  | cons a as ih => simp [List.isPrefixOf, ih]

theorem isSuffixOf_append (a b : List Char) : b.isSuffixOf (a ++ b) = true := by
  show b.reverse.isPrefixOf (a ++ b).reverse = true
  rw [List.reverse_append]
  exact isPrefixOf_self_append _ _

theorem strEndsWith_append (a b : String) : strEndsWith (a ++ b) b = true := by
  show b.data.isSuffixOf (a ++ b).data = true
  rw [data_append_eq]
  exact isSuffixOf_append _ _

theorem raiseForStatus_ok (r : HttpResponse) (h : r.status < 400) :
    raiseForStatus r = Except.ok r := by
  unfold raiseForStatus
  split
  · omega
  · rfl

theorem getResultLoop_isSome (poll : Nat → HttpResponse) (d : Nat → Nat) (wait : Bool)
    (maxWait pollInterval : Nat) (hpos : ∀ k, 0 < d k + pollInterval) :
    ∀ fuel k clock, maxWait + 1 ≤ fuel + clock →
      (getResultLoop poll d wait maxWait pollInterval (fuel + 1) k clock).isSome = true := by
  intro fuel
  induction fuel with
  | zero =>
    intro k clock h
    simp only [getResultLoop]
    split
    · rfl
    · split
      · rfl
      · split
        · rfl
        · split
          · rfl
          · exfalso
            have := hpos k
            omega
  | succ fuel ih =>
    intro k clock h
    simp only [getResultLoop]
    split
    · rfl
    · split
      · rfl
      · split
        · rfl
        · split
          · rfl
          · apply ih
            have := hpos k
            omega

theorem getResultLoop_exit_shape (poll : Nat → HttpResponse) (d : Nat → Nat) (wait : Bool)
    (maxWait pollInterval : Nat)
    (h2xx : ∀ k, (poll k).status < 400)
    (hst : ∀ k, ∃ st, ((poll k).body).lookup "status" = some st) :
    ∀ fuel k clock e,
      getResultLoop poll d wait maxWait pollInterval fuel k clock = some e →
      (∃ j st, e.result = Except.ok (poll j).body ∧
        ((poll j).body).lookup "status" = some st ∧
        (st = "completed" ∨ st = "failed" ∨ wait = false)) ∨
      e.result = Except.error ClientError.timeoutError := by
  intro fuel
  induction fuel with
  | zero =>
    intro k clock e he
    cases he
  | succ fuel ih =>
    intro k clock e he
    obtain ⟨st, hstk⟩ := hst k
    simp only [getResultLoop, raiseForStatus_ok _ (h2xx k), dictGet, hstk] at he
    by_cases hc : st = "completed" ∨ st = "failed" ∨ wait = false
    · rw [if_pos hc] at he
      cases he
      exact Or.inl ⟨k, st, rfl, hstk, hc⟩
    · rw [if_neg hc] at he
      by_cases ht : maxWait < clock + d k
      · rw [if_pos ht] at he
        cases he
        exact Or.inr rfl
      · rw [if_neg ht] at he
        exact ih _ _ _ he

theorem getResultLoop_timeout (poll : Nat → HttpResponse) (wait : Bool)
    (maxWait pollInterval : Nat)
    (h2xx : ∀ k, (poll k).status < 400)
    (hst : ∀ k, ∃ st, ((poll k).body).lookup "status" = some st)
    (hw : wait = true)
    (hnt : ∀ k st, ((poll k).body).lookup "status" = some st →
      st ≠ "completed" ∧ st ≠ "failed") :
    ∀ fuel k clock, clock ≤ maxWait + pollInterval →
      ∀ e, getResultLoop poll (fun _ => 0) wait maxWait pollInterval fuel k clock = some e →
        e.result = Except.error ClientError.timeoutError ∧
        e.elapsed ≤ maxWait + pollInterval := by
  intro fuel
  induction fuel with
  | zero =>
    intro k clock hc e he
    cases he
  | succ fuel ih =>
    intro k clock hc e he
    obtain ⟨st, hstk⟩ := hst k
    have hne := hnt k st hstk
    simp only [getResultLoop, raiseForStatus_ok _ (h2xx k), dictGet, hstk] at he
    rw [if_neg (by
      intro hor
      rcases hor with h1 | h1 | h1
      · exact hne.1 h1
      · exact hne.2 h1
      · rw [hw] at h1
        cases h1)] at he
    by_cases ht : maxWait < clock + 0
    · rw [if_pos ht] at he
      cases he
      exact ⟨rfl, by simpa using hc⟩
    · rw [if_neg ht] at he
      exact ih (k + 1) (clock + 0 + pollInterval) (by omega) e he

theorem getResultLoop_missing_at (poll : Nat → HttpResponse) (wait : Bool)
    (maxWait pollInterval : Nat) :
    ∀ n fuel j clock, n + 1 ≤ fuel →
      (∀ i, i < n → (poll (j + i)).status < 400) →
      (∀ i, i < n → ∃ st, ((poll (j + i)).body).lookup "status" = some st ∧
        st ≠ "completed" ∧ st ≠ "failed") →
      (n ≠ 0 → wait = true) →
      (poll (j + n)).status < 400 →
      ((poll (j + n)).body).lookup "status" = none →
      (∀ i, i < n → clock + i * pollInterval ≤ maxWait) →
      getResultLoop poll (fun _ => 0) wait maxWait pollInterval fuel j clock =
        some ⟨j + n + 1, clock + n * pollInterval,
          Except.error (ClientError.keyError "status")⟩ := by
  intro n
  induction n with
  | zero =>
    intro fuel j clock hfuel h2 hpre hw h2n hnone hb
    cases fuel with
    | zero => omega
    | succ f =>
      have h2j : (poll j).status < 400 := by simpa using h2n
      have hnj : ((poll j).body).lookup "status" = none := by simpa using hnone
      simp only [getResultLoop, raiseForStatus_ok _ h2j, dictGet, hnj]
      simp
  | succ n ih =>
    intro fuel j clock hfuel h2 hpre hw h2n hnone hb
    cases fuel with
    | zero => omega
    | succ f =>
      obtain ⟨st, hst0, hc, hf2⟩ := hpre 0 (Nat.succ_pos n)
      have h2j : (poll j).status < 400 := by simpa using h2 0 (Nat.succ_pos n)
      have hstj : ((poll j).body).lookup "status" = some st := by simpa using hst0
      simp only [getResultLoop, raiseForStatus_ok _ h2j, dictGet, hstj]
      rw [if_neg (by
        intro hor
        rcases hor with h1 | h1 | h1
        · exact hc h1
        · exact hf2 h1
        · rw [hw (Nat.succ_ne_zero n)] at h1
          cases h1)]
      rw [if_neg (by
        have := hb 0 (Nat.succ_pos n)
        omega)]
      rw [ih f (j + 1) (clock + 0 + pollInterval) (by omega)
        (fun i hi => by
          have h := h2 (i + 1) (by omega)
          rw [show j + 1 + i = j + (i + 1) from by omega]
          exact h)
        (fun i hi => by
          have h := hpre (i + 1) (by omega)
          rw [show j + 1 + i = j + (i + 1) from by omega]
          exact h)
        (fun _ => hw (Nat.succ_ne_zero n))
        (by
          rw [show j + 1 + n = j + (n + 1) from by omega]
          exact h2n)
        (by
          rw [show j + 1 + n = j + (n + 1) from by omega]
          exact hnone)
        (fun i hi => by
          have h := hb (i + 1) (by omega)
          rw [Nat.succ_mul] at h
          omega)]
      rw [show j + 1 + n + 1 = j + (n + 1) + 1 from by omega,
        show clock + 0 + pollInterval + n * pollInterval = clock + (n + 1) * pollInterval from by
          rw [Nat.succ_mul]
          omega]

-- Claim theorems.

/-- C5 counterexample: for the client built from the default base URL and
dataset id `d1`, the URL issued by `construct_knowledge_graph` does NOT end in
`/datasets/d1/knowledge_graph`; the source builds
`.../datasets/d1/run_graphrag` instead. -/
theorem construct_kg_url_counterexample :
    ((RagflowClient.init "key" "http://localhost:8000/v1").construct_knowledge_graph_url "d1" =
      "http://localhost:8000/v1/datasets/d1/run_graphrag") ∧
    strEndsWith ((RagflowClient.init "key" "http://localhost:8000/v1").construct_knowledge_graph_url "d1")
      "/datasets/d1/knowledge_graph" = false := by
  constructor
  · rfl
  · decide

/-- C5 (amended): retrieval (GET) and deletion (DELETE) address
`/datasets/{id}/knowledge_graph`, while construction issues a POST to
`/datasets/{id}/run_graphrag`. -/
theorem knowledge_graph_endpoints (apiKey baseUrl datasetId : String) :
    strEndsWith ((RagflowClient.init apiKey baseUrl).construct_knowledge_graph_url datasetId)
      ("/datasets/" ++ datasetId ++ "/run_graphrag") = true ∧
    strEndsWith ((RagflowClient.init apiKey baseUrl).get_knowledge_graph_url datasetId)
      ("/datasets/" ++ datasetId ++ "/knowledge_graph") = true ∧
    strEndsWith ((RagflowClient.init apiKey baseUrl).delete_knowledge_graph_url datasetId)
      ("/datasets/" ++ datasetId ++ "/knowledge_graph") = true ∧
    construct_knowledge_graph_method = "POST" ∧
    get_knowledge_graph_method = "GET" ∧
    delete_knowledge_graph_method = "DELETE" := by
  refine ⟨?_, ?_, ?_, rfl, rfl, rfl⟩
  all_goals
    first
    | (show strEndsWith (_ ++ "/datasets/" ++ datasetId ++ "/run_graphrag")
          ("/datasets/" ++ datasetId ++ "/run_graphrag") = true
       rw [string_append_assoc, string_append_assoc, string_append_assoc]
       exact strEndsWith_append _ _)
    | (show strEndsWith (_ ++ "/datasets/" ++ datasetId ++ "/knowledge_graph")
          ("/datasets/" ++ datasetId ++ "/knowledge_graph") = true
       rw [string_append_assoc, string_append_assoc, string_append_assoc]
       exact strEndsWith_append _ _)

/-- C10: both constructors strip trailing slashes from the base URL, so a base
URL followed by any number of trailing slashes yields the identical client
state (hence identical URLs for every operation), the stored base URL never
ends in a slash, and each composed URL joins the base and the path with
exactly the one slash contributed by the path template. -/
theorem base_url_normalisation (b apiKey jobId : String) (n : Nat) :
    MinRueClient.init (b ++ slashRepeat n) = MinRueClient.init b ∧
    RagflowClient.init apiKey (b ++ slashRepeat n) = RagflowClient.init apiKey b ∧
    strEndsWith (MinRueClient.init b).base_url "/" = false ∧
    strEndsWith (RagflowClient.init apiKey b).base_url "/" = false ∧
    (MinRueClient.init b).results_url jobId =
      (MinRueClient.init b).base_url ++ "/results/" ++ jobId ∧
    (MinRueClient.init b).health_url = (MinRueClient.init b).base_url ++ "/health" := by
  refine ⟨?_, ?_, ?_, ?_, rfl, rfl⟩
  · show (⟨rstripSlashes (b ++ slashRepeat n), 30⟩ : MinRueClient) = _
    rw [rstripSlashes_append_slashes]
    rfl
  · show (⟨apiKey, rstripSlashes (b ++ slashRepeat n), 30⟩ : RagflowClient) = _
    rw [rstripSlashes_append_slashes]
    rfl
  · exact rstripSlashes_no_trailing_slash b
  · exact rstripSlashes_no_trailing_slash b

/-- C1: for every remote status trace (well-formed 2xx responses carrying a
`status` field), every wait flag, maximum wait, polling interval and fetch
durations in which each poll iteration consumes positive wall-clock time,
`MinRueClient.get_result` terminates within its fuel bound and exits either
with a record whose status satisfied the return condition (terminal status, or
`wait` false) or with the distinct `TimeoutError`; moreover when `wait` is
true and the remote status never reaches a terminal value, it raises the
timeout error no later than `maxWait + pollInterval` after invocation. -/
theorem get_result_terminates (poll : Nat → HttpResponse) (d : Nat → Nat) (wait : Bool)
    (maxWait pollInterval : Nat)
    (hpos : ∀ k, 0 < d k + pollInterval)
    (h2xx : ∀ k, (poll k).status < 400)
    (hst : ∀ k, ∃ st, ((poll k).body).lookup "status" = some st) :
    (∃ e, get_result poll d wait maxWait pollInterval = some e ∧
      ((∃ j st, e.result = Except.ok (poll j).body ∧
          ((poll j).body).lookup "status" = some st ∧
          (st = "completed" ∨ st = "failed" ∨ wait = false)) ∨
        e.result = Except.error ClientError.timeoutError)) ∧
    (wait = true →
      (∀ k st, ((poll k).body).lookup "status" = some st →
        st ≠ "completed" ∧ st ≠ "failed") →
      0 < pollInterval →
      ∃ e, get_result poll (fun _ => 0) wait maxWait pollInterval = some e ∧
        e.result = Except.error ClientError.timeoutError ∧
        e.elapsed ≤ maxWait + pollInterval) := by
  constructor
  · have hs := getResultLoop_isSome poll d wait maxWait pollInterval hpos (maxWait + 1) 0 0
      (by omega)
    obtain ⟨e, he⟩ := Option.isSome_iff_exists.mp hs
    exact ⟨e, he, getResultLoop_exit_shape poll d wait maxWait pollInterval h2xx hst _ _ _ _ he⟩
  · intro hw hnt hpi
    have hs := getResultLoop_isSome poll (fun _ => 0) wait maxWait pollInterval
      (fun _ => by simpa using hpi) (maxWait + 1) 0 0 (by omega)
    obtain ⟨e, he⟩ := Option.isSome_iff_exists.mp hs
    exact ⟨e, he, getResultLoop_timeout poll wait maxWait pollInterval h2xx hst hw hnt _ _ _
      (by omega) e he⟩

/-- C1 witness: the theorem instantiated at a service that always reports
status `pending` over 2xx responses, with `wait` true, `maxWait` 3 seconds and
a 2-second polling interval. -/
theorem get_result_terminates_witness :
    (∃ e, get_result (fun _ => ⟨200, [("status", "pending")]⟩) (fun _ => 0) true 3 2 = some e ∧
      ((∃ j : Nat, ∃ st,
          e.result = Except.ok ([("status", "pending")] : Obj) ∧
          (([("status", "pending")] : Obj)).lookup "status" = some st ∧
          (st = "completed" ∨ st = "failed" ∨ (true : Bool) = false)) ∨
        e.result = Except.error ClientError.timeoutError)) ∧
    ((true : Bool) = true →
      (∀ k : Nat, ∀ st, (([("status", "pending")] : Obj)).lookup "status" = some st →
        st ≠ "completed" ∧ st ≠ "failed") →
      0 < 2 →
      ∃ e, get_result (fun _ => ⟨200, [("status", "pending")]⟩) (fun _ => 0) true 3 2 = some e ∧
        e.result = Except.error ClientError.timeoutError ∧
        e.elapsed ≤ 3 + 2) :=
  get_result_terminates (fun _ => ⟨200, [("status", "pending")]⟩) (fun _ => 0) true 3 2
    (fun _ => Nat.succ_pos 1) (fun _ => show (200 : Nat) < 400 by decide)
    (fun _ => ⟨"pending", rfl⟩)

/-- C2: if the first fetched record already has a terminal status, or `wait`
is false, `get_result` returns that record after exactly one fetch, with no
sleep: the exit time is just the duration of the single fetch. -/
theorem get_result_first_fetch (poll : Nat → HttpResponse) (d : Nat → Nat) (wait : Bool)
    (maxWait pollInterval : Nat) (st : String)
    (h2xx : (poll 0).status < 400)
    (hst : ((poll 0).body).lookup "status" = some st) :
    ((st = "completed" ∨ st = "failed") →
      get_result poll d wait maxWait pollInterval =
        some ⟨1, d 0, Except.ok (poll 0).body⟩) ∧
    (wait = false →
      get_result poll d wait maxWait pollInterval =
        some ⟨1, d 0, Except.ok (poll 0).body⟩) := by
  constructor
  · intro hterm
    show getResultLoop poll d wait maxWait pollInterval (maxWait + 1 + 1) 0 0 = _
    simp only [getResultLoop, raiseForStatus_ok _ h2xx, dictGet, hst]
    rw [if_pos (by
      rcases hterm with h | h
      · exact Or.inl h
      · exact Or.inr (Or.inl h))]
    simp
  · intro hwf
    show getResultLoop poll d wait maxWait pollInterval (maxWait + 1 + 1) 0 0 = _
    simp only [getResultLoop, raiseForStatus_ok _ h2xx, dictGet, hst]
    rw [if_pos (Or.inr (Or.inr hwf))]
    simp

/-- C2 witness: a service whose first record is already `completed` with
`wait` true, a 1-second fetch duration, `maxWait` 5 and polling interval 2:
the call returns the first body after a single fetch at time 1. -/
theorem get_result_first_fetch_witness :
    get_result (fun _ => ⟨200, [("status", "completed")]⟩) (fun _ => 1) true 5 2 =
      some ⟨1, 1, Except.ok [("status", "completed")]⟩ :=
  (get_result_first_fetch (fun _ => ⟨200, [("status", "completed")]⟩) (fun _ => 1) true 5 2
    "completed" (by decide) rfl).1 (Or.inl rfl)

/-- C9: on any poll iteration k that the loop reaches (every earlier 2xx
response carries a non-terminal status, no earlier check exceeded the maximum
wait, and `wait` is true unless k is the first iteration), a 2xx response
body that lacks the `status` key makes `get_result` raise `KeyError` from the
dictionary lookup — on the first iteration for both values of the wait flag —
rather than returning a record or raising a timeout-kind error; fetches are
taken as instantaneous, so the k-th check happens at elapsed time
`k * pollInterval`. -/
theorem get_result_missing_status (poll : Nat → HttpResponse) (wait : Bool)
    (maxWait pollInterval k : Nat)
    (h2xx : ∀ j, j ≤ k → (poll j).status < 400)
    (hpre : ∀ j, j < k → ∃ st, ((poll j).body).lookup "status" = some st ∧
      st ≠ "completed" ∧ st ≠ "failed")
    (hwait : k ≠ 0 → wait = true)
    (hnone : ((poll k).body).lookup "status" = none)
    (hfit : k ≤ maxWait + 1)
    (hbound : ∀ j, j < k → j * pollInterval ≤ maxWait) :
    get_result poll (fun _ => 0) wait maxWait pollInterval =
      some ⟨k + 1, k * pollInterval, Except.error (ClientError.keyError "status")⟩ := by
  have h := getResultLoop_missing_at poll wait maxWait pollInterval k (maxWait + 2) 0 0
    (by omega)
    (fun i hi => by simpa using h2xx i (by omega))
    (fun i hi => by simpa using hpre i hi)
    hwait
    (by simpa using h2xx k (le_refl k))
    (by simpa using hnone)
    (fun i hi => by simpa using hbound i hi)
  simpa using h

/-- C9 witness: the theorem applied twice concretely — a status-less 2xx body
on the very first fetch with `wait` false, and a status-less 2xx body on the
second iteration after a `pending` first record with `wait` true — both
yielding the `KeyError` exit. -/
theorem get_result_missing_status_witness :
    get_result (fun _ => ⟨200, [("output", "x")]⟩) (fun _ => 0) false 5 1 =
      some ⟨1, 0, Except.error (ClientError.keyError "status")⟩ ∧
    get_result (fun j => if j = 0 then ⟨200, [("status", "pending")]⟩
        else ⟨200, [("output", "x")]⟩) (fun _ => 0) true 5 2 =
      some ⟨2, 2, Except.error (ClientError.keyError "status")⟩ :=
  ⟨get_result_missing_status (fun _ => ⟨200, [("output", "x")]⟩) false 5 1 0
    (fun _ _ => show (200 : Nat) < 400 by decide)
    (fun j hj => absurd hj (by omega))
    (fun h0 => absurd rfl h0)
    rfl
    (by omega)
    (fun j hj => absurd hj (by omega)),
   get_result_missing_status
    (fun j => if j = 0 then ⟨200, [("status", "pending")]⟩ else ⟨200, [("output", "x")]⟩)
    true 5 2 1
    (fun j _ => by cases j <;> exact show (200 : Nat) < 400 by decide)
    (fun j hj => by
      have hj0 : j = 0 := by omega
      subst hj0
      exact ⟨"pending", rfl, by decide, by decide⟩)
    (fun _ => rfl)
    rfl
    (by omega)
    (fun j hj => by omega)⟩

theorem retryLoop_all_fail (respond : Nat → HttpResponse) (method : String)
    (hm : allowed_methods.contains method = true)
    (hs : ∀ a, status_forcelist.contains (respond a).status = true) :
    ∀ rem a, retryLoop respond method a rem =
      (respond (a + rem), (List.range rem).map (fun i => backoff_factor * 2 ^ (a + i))) := by
  intro rem
  induction rem with
  | zero =>
    intro a
    simp [retryLoop]
  | succ rem ih =>
    intro a
    have hcond : (allowed_methods.contains method &&
        status_forcelist.contains (respond a).status) = true := by
      rw [hm, hs a]
      rfl
    show (if (allowed_methods.contains method &&
          status_forcelist.contains (respond a).status) = true then
        ((retryLoop respond method (a + 1) rem).1,
          backoff_factor * 2 ^ a :: (retryLoop respond method (a + 1) rem).2)
      else (respond a, [])) = _
    rw [if_pos hcond, ih (a + 1)]
    refine Prod.ext ?_ ?_
    · show respond (a + 1 + rem) = respond (a + (rem + 1))
      rw [show a + 1 + rem = a + (rem + 1) from by omega]
    · show backoff_factor * 2 ^ a :: (List.range rem).map (fun i => backoff_factor * 2 ^ (a + 1 + i)) =
        (List.range (rem + 1)).map (fun i => backoff_factor * 2 ^ (a + i))
      rw [List.range_succ_eq_map, List.map_cons, List.map_map]
      refine congrArg₂ List.cons (by simp) ?_
      refine List.map_congr_left ?_
      intro i _
      show backoff_factor * 2 ^ (a + 1 + i) = backoff_factor * 2 ^ (a + (i + 1))
      rw [show a + 1 + i = a + (i + 1) from by omega]

theorem openAll_missing (fs : String → Bool) :
    ∀ paths : List String, ∀ p ∈ paths, fs p = false →
      ∃ q, fs q = false ∧ openAll fs paths = Except.error (ClientError.fileNotFound q) := by
  intro paths
  induction paths with
  | nil =>
    intro p hp
    cases hp
  | cons a as ih =>
    intro p hp hpf
    cases ha : fs a with
    | false =>
      exact ⟨a, ha, by simp [openAll, ha]⟩
    | true =>
      rcases List.mem_cons.mp hp with rfl | hmem
      · rw [ha] at hpf
        cases hpf
      · obtain ⟨q, hq1, hq2⟩ := ih p hmem hpf
        exact ⟨q, hq1, by simp [openAll, ha, hq2]⟩

/-- C3: the session built by `_create_session` retries a request whose method
is in the configured method list and whose status is in
`status_forcelist = [429, 500, 502, 503, 504]` up to the configured maximum,
sleeping `backoff_factor * 2 ^ (attempt - 1)` before the attempt-th retry and
finally surfacing the last failing response; any status outside the forcelist
is returned immediately with no retry, and `raise_for_status` then surfaces it
as an HTTP error; the configured method list is the standard method set. -/
theorem session_retry_policy (respond : Nat → HttpResponse) (method : String) (retries : Nat) :
    (allowed_methods.contains method = true →
      (∀ a, status_forcelist.contains (respond a).status = true) →
      sessionRequest respond method retries =
        (respond retries, (List.range retries).map (fun i => backoff_factor * 2 ^ i))) ∧
    (status_forcelist.contains (respond 0).status = false →
      sessionRequest respond method retries = (respond 0, [])) ∧
    (∀ r : HttpResponse, 400 ≤ r.status → r.status < 600 →
      raiseForStatus r = Except.error (ClientError.httpError r.status r.body)) ∧
    allowed_methods = ["HEAD", "GET", "POST", "PUT", "DELETE", "OPTIONS", "TRACE"] ∧
    status_forcelist = [429, 500, 502, 503, 504] := by
  refine ⟨?_, ?_, ?_, rfl, rfl⟩
  · intro hm hs
    have h := retryLoop_all_fail respond method hm hs retries 0
    simpa [sessionRequest] using h
  · intro h0
    cases retries with
    | zero => rfl
    | succ rem =>
      show (if (allowed_methods.contains method &&
          status_forcelist.contains (respond 0).status) = true then
        ((retryLoop respond method (0 + 1) rem).1,
          backoff_factor * 2 ^ 0 :: (retryLoop respond method (0 + 1) rem).2)
      else (respond 0, [])) = _
      rw [if_neg (by rw [h0, Bool.and_false]; exact Bool.false_ne_true)]
  · intro r h1 h2
    unfold raiseForStatus
    rw [if_pos ⟨h1, h2⟩]

/-- C3 witness: a service always answering 500 to a GET is retried twice with
delays 1 and 2 seconds before the last 500 surfaces; a 404 surfaces at once
with no retry. -/
theorem session_retry_policy_witness :
    sessionRequest (fun _ => ⟨500, []⟩) "GET" 2 = (⟨500, []⟩, [1, 2]) ∧
    sessionRequest (fun _ => ⟨404, []⟩) "GET" 3 = (⟨404, []⟩, []) := by
  constructor
  · rw [(session_retry_policy (fun _ => ⟨500, []⟩) "GET" 2).1 (by decide)
      (fun _ => show status_forcelist.contains (500 : Nat) = true by decide)]
    decide
  · rw [(session_retry_policy (fun _ => ⟨404, []⟩) "GET" 3).2.1
      (show status_forcelist.contains (404 : Nat) = false by decide)]

/-- C4: the claim fails on the code and the code contradicts its own evident
intent.  In `MinRueClient.process_file` the `with` block closes the handle
before `session.post` is reached, so the handle is NOT open during the HTTP
request; in `RagflowClient.upload_documents` the close loop runs only on the
success path, so when the request raises, the opened handle is never closed
(it is still open at the end of the trace). -/
theorem upload_handle_lifecycle_bug :
    openDuringRequest (process_file_events "doc.txt") "doc.txt" = false ∧
    FileEvent.closeFile "a.txt" ∉ upload_documents_events ["a.txt"] false ∧
    isOpenAfter (upload_documents_events ["a.txt"] false) "a.txt" = true := by
  refine ⟨by decide, by decide, by decide⟩

/-- C6: submitting a missing file path fails with `FileNotFoundError` before
any HTTP request: `process_file` checks `os.path.exists` first, and
`upload_documents` opens every listed file before posting, so in both cases
zero network calls are made. -/
theorem missing_file_no_network (fs : String → Bool) (filePath datasetId p : String)
    (paths : List String) (resp : HttpResponse)
    (hmin : fs filePath = false) (hp : p ∈ paths) (hpf : fs p = false) :
    process_file fs filePath resp = (Except.error (ClientError.fileNotFound filePath), 0) ∧
    ∃ q, fs q = false ∧
      upload_documents fs datasetId paths resp =
        (Except.error (ClientError.fileNotFound q), 0) := by
  constructor
  · unfold process_file
    rw [if_neg (by simp [hmin])]
  · obtain ⟨q, hq1, hq2⟩ := openAll_missing fs paths p hp hpf
    exact ⟨q, hq1, by simp [upload_documents, hq2]⟩

/-- C6 witness: on an empty filesystem, both upload operations fail locally
with the file-not-found error and zero network calls. -/
theorem missing_file_no_network_witness :
    process_file (fun _ => false) "doc.txt" ⟨200, []⟩ =
      (Except.error (ClientError.fileNotFound "doc.txt"), 0) ∧
    ∃ q, (fun _ => false : String → Bool) q = false ∧
      upload_documents (fun _ => false) "ds1" ["a.txt"] ⟨200, []⟩ =
        (Except.error (ClientError.fileNotFound q), 0) :=
  missing_file_no_network (fun _ => false) "doc.txt" "ds1" "a.txt" ["a.txt"] ⟨200, []⟩ rfl
    (List.mem_singleton.mpr rfl) rfl

/-- C7: each CLI command of either client returns exit code 0 exactly when
the invoked operation succeeds and 1 on any caught error, always printing at
least one line: the minrue health/models/tasks shape, the minrue `result`
command (exit 0 on a `completed` record with its output present, 1 on a
failed record or any exception), the minrue `process` command (exit 0 after a
successful submit, with or without the waiting branch, 1 on any exception or
failed record), and the ragflow top level, which catches both HTTP errors and
all other exceptions, printing a message and exiting 1. -/
theorem cli_exit_codes :
    (∀ h : Obj, cli_health (Except.ok h) = (0, [jsonDump h])) ∧
    (∀ e, (cli_health (Except.error e)).1 = 1 ∧ (cli_health (Except.error e)).2 ≠ []) ∧
    (∀ jobId e out, (cli_result jobId (Except.error e) out).1 = 1 ∧
      (cli_result jobId (Except.error e) out).2 ≠ []) ∧
    (∀ jobId r out res, dictGet r "status" = Except.ok "completed" →
      dictGet r "output" = Except.ok res →
      (cli_result jobId (Except.ok r) out).1 = 0) ∧
    (∀ jobId r out st, dictGet r "status" = Except.ok st → st ≠ "completed" →
      (cli_result jobId (Except.ok r) out).1 = 1) ∧
    (∀ lines, ragflow_main (Except.ok lines) = (0, lines)) ∧
    (∀ e, (ragflow_main (Except.error e)).1 = 1 ∧ (ragflow_main (Except.error e)).2 ≠ []) ∧
    (∀ filePath e res out, (cli_process filePath (Except.error e) res out).1 = 1 ∧
      (cli_process filePath (Except.error e) res out).2 ≠ []) ∧
    (∀ filePath jobInfo jobId res, dictGet jobInfo "job_id" = Except.ok jobId →
      (cli_process filePath (Except.ok jobInfo) res none).1 = 0) ∧
    (∀ filePath jobInfo jobId p e, dictGet jobInfo "job_id" = Except.ok jobId →
      (cli_process filePath (Except.ok jobInfo) (Except.error e) (some p)).1 = 1 ∧
      (cli_process filePath (Except.ok jobInfo) (Except.error e) (some p)).2 ≠ []) ∧
    (∀ filePath jobInfo jobId r p res, dictGet jobInfo "job_id" = Except.ok jobId →
      dictGet r "status" = Except.ok "completed" → dictGet r "output" = Except.ok res →
      (cli_process filePath (Except.ok jobInfo) (Except.ok r) (some p)).1 = 0) ∧
    (∀ filePath jobInfo jobId r p st, dictGet jobInfo "job_id" = Except.ok jobId →
      dictGet r "status" = Except.ok st → st ≠ "completed" →
      (cli_process filePath (Except.ok jobInfo) (Except.ok r) (some p)).1 = 1) := by
  refine ⟨fun h => rfl, fun e => ⟨rfl, by simp [cli_health]⟩, ?_, ?_, ?_, fun lines => rfl,
    ?_, ?_, ?_, ?_, ?_, ?_⟩
  · intro jobId e out
    exact ⟨rfl, by simp [cli_result]⟩
  · intro jobId r out res h1 h2
    cases out <;> simp [cli_result, h1, h2]
  · intro jobId r out st h1 hne
    cases hd : dictGet r "error" <;> simp [cli_result, h1, hne, hd]
  · intro e
    cases e <;> exact ⟨rfl, by simp [ragflow_main]⟩
  · intro filePath e res out
    exact ⟨rfl, by simp [cli_process]⟩
  · intro filePath jobInfo jobId res hjid
    simp [cli_process, hjid]
  · intro filePath jobInfo jobId p e hjid
    exact ⟨by simp [cli_process, hjid], by simp [cli_process, hjid]⟩
  · intro filePath jobInfo jobId r p res hjid h1 h2
    simp [cli_process, hjid, h1, h2]
  · intro filePath jobInfo jobId r p st hjid h1 hne
    cases hd : dictGet r "error" <;> simp [cli_process, hjid, h1, hne, hd]

/-- C7 witness: a completed record with an output yields exit code 0 from the
`result` command; a timeout raised to the ragflow top level yields exit code 1
with a printed message; a health success prints its JSON dump with exit 0; a
missing input file gives the `process` command exit code 1, and a successful
submit followed by a completed wait gives it exit code 0. -/
theorem cli_exit_codes_witness :
    (cli_result "j1" (Except.ok [("status", "completed"), ("output", "done")]) none).1 = 0 ∧
    (ragflow_main (Except.error ClientError.timeoutError)).1 = 1 ∧
    cli_health (Except.ok [("ok", "true")]) = (0, [jsonDump [("ok", "true")]]) ∧
    (cli_process "doc.txt" (Except.error (ClientError.fileNotFound "doc.txt"))
      (Except.ok []) none).1 = 1 ∧
    (cli_process "notes.txt" (Except.ok [("job_id", "job-42")])
      (Except.ok [("status", "completed"), ("output", "Refined notes.")])
      (some "refined.txt")).1 = 0 :=
  ⟨cli_exit_codes.2.2.2.1 "j1" [("status", "completed"), ("output", "done")] none "done" rfl rfl,
   (cli_exit_codes.2.2.2.2.2.2.1 ClientError.timeoutError).1,
   cli_exit_codes.1 [("ok", "true")],
   (cli_exit_codes.2.2.2.2.2.2.2.1 "doc.txt" (ClientError.fileNotFound "doc.txt")
     (Except.ok []) none).1,
   cli_exit_codes.2.2.2.2.2.2.2.2.2.2.1 "notes.txt" [("job_id", "job-42")] "job-42"
     [("status", "completed"), ("output", "Refined notes.")] "refined.txt" "Refined notes."
     rfl rfl rfl⟩

/-- C8: for the dataset-creation response with body
`data = (id: d1, name: kb1)`, the CLI prints the single line
`Created dataset: kb1 (ID: d1)`, which contains both `kb1` and `d1` and no
newline character. -/
theorem dataset_create_prints_ids :
    dataset_create_line
        (Json.obj [("data", Json.obj [("id", Json.str "d1"), ("name", Json.str "kb1")])]) =
      Except.ok "Created dataset: kb1 (ID: d1)" ∧
    (∃ a b, "Created dataset: kb1 (ID: d1)" = a ++ "kb1" ++ b) ∧
    (∃ a b, "Created dataset: kb1 (ID: d1)" = a ++ "d1" ++ b) ∧
    ("Created dataset: kb1 (ID: d1)").data.contains '\n' = false := by
  refine ⟨rfl, ⟨"Created dataset: ", " (ID: d1)", by decide⟩,
    ⟨"Created dataset: kb1 (ID: ", ")", by decide⟩, by decide⟩
